import Mathlib

/-!
Verification development for the petition-generation pipeline
(`utils/agents.py`, `utils/db_manager.py`, `utils/aitogether_client.py`).

The Python code is shallowly embedded: string-keyed dicts become association
lists (first match wins, as in a dict with unique keys), Python exceptions
become `Except` errors, the SQLite table `agent_models` becomes a list of rows
queried in order, and the external Together API client becomes an abstract
function (an oracle) from model id and prompt to a response or a client-side
failure.  All definitions follow the source; the few places where the Python
runtime semantics had to be spelled out (the `str.format` mini-language, the
`dict.get` defaults) are modelled to match CPython behaviour on the fragment
the repository uses and are commented at the definition site.
-/

set_option autoImplicit false

/-- A Python `Dict[str, str]` context, as an association list.  Python dicts
have unique keys; lookups here take the first matching entry, which agrees
with dict semantics on every dict the code builds. -/
abbrev Ctx := List (String × String)

/-- Lookup in a context, mirroring `d[k]` / `k in d` on a Python dict. -/
def ctxGet : Ctx → String → Option String
  | [], _ => none
  | (k, v) :: rest, q => if k = q then some v else ctxGet rest q

/-- Failures raised by `AITogetherClient.generate_text`
(`utils/aitogether_client.py`): a non-200 status or a transport/parse error,
raised as the client's own exception, never as one of the orchestrator's
`ValueError`s. -/
inductive ClientError where
  /-- `raise Exception(f"Erro ao gerar texto: \x7bresponse.status_code\x7d")`
  or a propagated transport error, carried as its message. -/
  | apiError (msg : String)
  deriving DecidableEq

/-- Exceptions that can escape the pipeline code in `utils/agents.py`. -/
inductive PipelineError where
  /-- `ValueError(f"Especialidade não suportada: ...")` from
  `_load_specialty_template`. -/
  | unsupportedSpecialty (specialty : String)
  /-- `ValueError(f"Contexto incompleto para formatação do prompt: ...")` from
  `PetitionAgent._format_prompt`, carrying the key of the `KeyError` it
  caught. -/
  | incompleteContext (key : String)
  /-- A malformed replacement field in `str.format` (for example an unmatched
  brace): CPython raises a `ValueError`/`IndexError` that is *not* a
  `KeyError`, so `_format_prompt` does not convert it. -/
  | formatError
  /-- `ValueError(f"Nenhum agente gerador encontrado para o tipo de petição:
  ...")` from `AgentOrchestrator.generate_petition`. -/
  | noGenerator (petitionType : String)
  /-- An exception raised by the AI client, re-raised unchanged by
  `PetitionAgent.generate`. -/
  | generated (e : ClientError)
  /-- `IndexError` from `response.get("choices", [...])[0]` when the response
  carries an empty `choices` list. -/
  | choicesIndexError
  deriving DecidableEq

/-- One element of the `choices` array of a generation response, as consumed
by `PetitionAgent.generate`: the `text` field may be absent. -/
structure AIChoice where
  textField : Option String
  deriving DecidableEq

/-- The response mapping returned by `AITogetherClient.generate_text`, as
consumed by `PetitionAgent.generate`: the `choices` key may be absent. -/
structure AIResponse where
  choices : Option (List AIChoice)
  deriving DecidableEq

/-- The external text-generation capability: given a model id and a rendered
prompt it returns a response mapping or fails with a client error.  The fixed
sampling parameters the code always passes (`max_tokens=2000`,
`temperature=0.7`) are constants absorbed into the oracle. -/
abbrev AIClient := String → String → Except ClientError AIResponse

/-! ### The `str.format` mini-language

`PetitionAgent._format_prompt` calls `self.prompt_template.format(**context)`.
We model the fragment of CPython's format mini-language the repository's
templates live in: literal text, `\x7b\x7b`/`\x7d\x7d` escapes, and plain
named replacement fields.  A field whose name is empty, starts with a digit
(a positional index), or contains punctuation (attribute access, format
specs) is outside the modelled fragment and is mapped to `formatError`,
matching the fact that CPython raises a non-`KeyError` error or performs an
access the repository never uses. -/

/-- A parsed template token: a literal character or a named replacement
field. -/
inductive Tok where
  | lit (c : Char)
  | ph (name : String)
  deriving DecidableEq

/-- Characters allowed in a modelled replacement-field name (a plain Python
identifier character). -/
def isNameChar (c : Char) : Bool :=
  c.isAlpha || c.isDigit || c == '_'

/-- A modelled field name: nonempty, made of identifier characters, not
starting with a digit (a leading digit would be a positional index in
CPython). -/
def validName : List Char → Bool
  | [] => false
  | c :: cs => !c.isDigit && (c :: cs).all isNameChar

/-- Scanner for the format mini-language.  The second argument is `none`
outside a replacement field and `some acc` inside one, with `acc` holding the
field characters in reverse. -/
def scanTemplate : List Char → Option (List Char) → Option (List Tok)
  | [], none => some []
  | [], some _ => none
  | c :: rest, some acc =>
    if c == '}' then
      let field := acc.reverse
      if validName field then
        (scanTemplate rest none).map (fun ts => Tok.ph (String.mk field) :: ts)
      else none
    else scanTemplate rest (some (c :: acc))
  | '{' :: '{' :: rest, none =>
    (scanTemplate rest none).map (fun ts => Tok.lit '{' :: ts)
  | '{' :: rest, none => scanTemplate rest (some [])
  | '}' :: '}' :: rest, none =>
    (scanTemplate rest none).map (fun ts => Tok.lit '}' :: ts)
  | '}' :: _, none => none
  | c :: rest, none =>
    (scanTemplate rest none).map (fun ts => Tok.lit c :: ts)

/-- Parse a template string into tokens; `none` when the template is
malformed or uses a construct outside the modelled fragment. -/
def tokenize (template : String) : Option (List Tok) :=
  scanTemplate template.data none

/-- The replacement-field names a token list references, in order. -/
def phNames : List Tok → List String
  | [] => []
  | .lit _ :: ts => phNames ts
  | .ph n :: ts => n :: phNames ts

/-- The field names a template string references, when it is well formed. -/
def placeholders (template : String) : Option (List String) :=
  (tokenize template).map phNames

/-- Substitute the tokens against a context, left to right; on the first
field missing from the context, fail with that field's name (the `KeyError`
CPython raises). -/
def render (ctx : Ctx) : List Tok → Except String String
  | [] => .ok ""
  | .lit c :: ts => (render ctx ts).map (fun s => String.mk (c :: s.data))
  | .ph n :: ts =>
    match ctxGet ctx n with
    | none => .error n
    | some v => (render ctx ts).map (fun s => v ++ s)

/-- `PetitionAgent._format_prompt` (utils/agents.py, lines 93-106): render the
template; a `KeyError` is caught and re-raised as the `incompleteContext`
`ValueError`; any other formatting error propagates unchanged. -/
def format_prompt (template : String) (ctx : Ctx) : Except PipelineError String :=
  match tokenize template with
  | none => .error .formatError
  | some ts =>
    match render ctx ts with
    | .error k => .error (.incompleteContext k)
    | .ok s => .ok s

/-- Extraction step of `PetitionAgent.generate` (utils/agents.py, line 79):
`response.get("choices", [...])[0].get("text", "")` where the `get` default
is a one-element list holding an empty dict. -/
def extract_generated_text (response : AIResponse) : Except PipelineError String :=
  match response.choices with
  | none => .ok ""
  | some [] => .error .choicesIndexError
  | some (c :: _) => .ok (c.textField.getD "")

/-- Returned value of `PetitionAgent.generate` (utils/agents.py, lines
49-91): format the prompt, call the client, extract the first choice's text.
Logging calls only read their arguments and are omitted. -/
def agent_generate_result (ai : AIClient) (model_id template : String)
    (context : Ctx) : Except PipelineError String :=
  match format_prompt template context with
  | .error e => .error e
  | .ok prompt =>
    match ai model_id prompt with
    | .error e => .error (.generated e)
    | .ok response => extract_generated_text response

/-- `PetitionAgent.generate`, with the caller's context threaded through
explicitly: the method only ever reads the context (`json.dumps`,
`str.format`), so the call hands it back unchanged. -/
def agent_generate (ai : AIClient) (model_id template : String)
    (context : Ctx) : Except PipelineError String × Ctx :=
  (agent_generate_result ai model_id template context, context)

/-! ### Built-in specialty templates

The in-code template tables of `GeneratorAgent._load_specialty_template`
(utils/agents.py, lines 128-370) and `ReviewerAgent._load_specialty_template`
(lines 392-480), with the template texts verbatim.  The tables are given as
lists in the source's key order; Python dict keys are unique, so first-match
lookup below agrees with `specialty in templates` / `templates[specialty]`. -/

/-- The `templates` dict of `GeneratorAgent._load_specialty_template`. -/
def generator_templates : List (String × String) := [
  ("recurso_administrativo",
   "
            Você é um advogado especialista em direito administrativo, com vasta experiência em recursos administrativos, especialmente em processos licitatórios.
            
            TIPO DE PETIÇÃO: Recurso Administrativo
            
            FATOS APRESENTADOS PELO CLIENTE:
            {fatos}
            
            CLIENTE:
            Nome: {cliente_nome}
            CNPJ/CPF: {cliente_cnpj}
            
            REFERÊNCIA DO PROCESSO (se fornecida):
            {referencia_processo}
            
            AUTORIDADE (se fornecida):
            {autoridade}
            
            CIDADE:
            {cidade}
            
            INSTRUÇÕES:
            
            1. Analise cuidadosamente os fatos apresentados pelo cliente.
            2. Identifique o tipo específico de recurso administrativo necessário (contra inabilitação, desclassificação, etc.).
            3. Desenvolva uma estratégia jurídica sólida, identificando os melhores argumentos legais e jurisprudenciais.
            4. Formule pedidos adequados e pertinentes ao caso.
            5. Gere um recurso administrativo completo e persuasivo.
            6. IMPORTANTE: NÃO utilize a Lei 8.666/93, pois foi revogada pela Lei 14.133/2021 (Nova Lei de Licitações).
            
            A petição deve ser estruturada com:
            1. Cabeçalho com dados do processo e autoridade
            2. Qualificação do recorrente
            3. Dos fatos (reescritos de forma jurídica e estratégica)
            4. Do direito (fundamentos jurídicos detalhados, incluindo legislação e jurisprudência relevantes)
            5. Dos pedidos (elaborados de acordo com a estratégia jurídica)
            6. Fechamento com local, data e espaço para assinatura
            
            Use linguagem formal e técnica jurídica apropriada. Seja persuasivo e estratégico na argumentação.
            
            BASE DE CONHECIMENTO JURÍDICO:
            - Lei 14.133/2021 (Nova Lei de Licitações e Contratos Administrativos)
            - Lei 9.784/99 (Processo Administrativo Federal)
            - Lei 10.520/2002 (Pregão)
            - Decreto 10.024/2019 (Pregão Eletrônico)
            - Jurisprudência do TCU sobre licitações
            - Princípios do Direito Administrativo (legalidade, impessoalidade, moralidade, publicidade, eficiência, etc.)
            - Princípios específicos de licitações (competitividade, julgamento objetivo, vinculação ao instrumento convocatório, etc.)
            "),
  ("impugnacao_edital",
   "
            Você é um advogado especialista em direito administrativo, com vasta experiência em licitações e contratos administrativos.
            
            TIPO DE PETIÇÃO: Impugnação ao Edital
            
            FATOS APRESENTADOS PELO CLIENTE:
            {fatos}
            
            CLIENTE:
            Nome: {cliente_nome}
            CNPJ/CPF: {cliente_cnpj}
            
            REFERÊNCIA DO PROCESSO (se fornecida):
            {referencia_processo}
            
            AUTORIDADE (se fornecida):
            {autoridade}
            
            CIDADE:
            {cidade}
            
            INSTRUÇÕES:
            
            1. Analise cuidadosamente os fatos apresentados pelo cliente.
            2. Identifique as possíveis ilegalidades ou irregularidades no edital.
            3. Desenvolva uma estratégia jurídica sólida, identificando os melhores argumentos legais e jurisprudenciais.
            4. Formule pedidos adequados e pertinentes ao caso.
            5. Gere uma impugnação ao edital completa e persuasiva.
            6. IMPORTANTE: NÃO utilize a Lei 8.666/93, pois foi revogada pela Lei 14.133/2021 (Nova Lei de Licitações).
            
            A petição deve ser estruturada com:
            1. Cabeçalho com dados do edital e autoridade
            2. Qualificação do impugnante
            3. Dos fatos (reescritos de forma jurídica e estratégica)
            4. Das ilegalidades do edital (identificadas a partir dos fatos)
            5. Do direito (fundamentos jurídicos detalhados, incluindo legislação e jurisprudência relevantes)
            6. Dos pedidos (elaborados de acordo com a estratégia jurídica)
            7. Fechamento com local, data e espaço para assinatura
            
            Use linguagem formal e técnica jurídica apropriada. Seja persuasivo e estratégico na argumentação.
            
            BASE DE CONHECIMENTO JURÍDICO:
            - Lei 14.133/2021 (Nova Lei de Licitações e Contratos Administrativos)
            - Lei 10.520/2002 (Pregão)
            - Decreto 10.024/2019 (Pregão Eletrônico)
            - Jurisprudência do TCU sobre licitações
            - Súmulas do TCU relacionadas a licitações
            - Princípios do Direito Administrativo (legalidade, impessoalidade, moralidade, publicidade, eficiência, etc.)
            - Princípios específicos de licitações (competitividade, julgamento objetivo, vinculação ao instrumento convocatório, etc.)
            "),
  ("mandado_seguranca",
   "
            Você é um advogado especialista em direito constitucional e administrativo, com vasta experiência em mandados de segurança.
            
            TIPO DE PETIÇÃO: Mandado de Segurança
            
            FATOS APRESENTADOS PELO CLIENTE:
            {fatos}
            
            CLIENTE:
            Nome: {cliente_nome}
            CNPJ/CPF: {cliente_cnpj}
            
            REFERÊNCIA DO PROCESSO (se fornecida):
            {referencia_processo}
            
            AUTORIDADE (se fornecida):
            {autoridade}
            
            CIDADE:
            {cidade}
            
            INSTRUÇÕES:
            
            1. Analise cuidadosamente os fatos apresentados pelo cliente.
            2. Identifique o direito líquido e certo violado ou ameaçado.
            3. Identifique a autoridade coatora responsável pelo ato ilegal ou abusivo.
            4. Desenvolva uma estratégia jurídica sólida, identificando os melhores argumentos legais e jurisprudenciais.
            5. Avalie a necessidade de pedido liminar e formule-o adequadamente.
            6. Formule pedidos principais adequados e pertinentes ao caso.
            7. Gere um mandado de segurança completo e persuasivo.
            8. IMPORTANTE: Se o caso envolver licitações, NÃO utilize a Lei 8.666/93, pois foi revogada pela Lei 14.133/2021 (Nova Lei de Licitações).
            
            A petição deve ser estruturada com:
            1. Endereçamento ao juízo competente
            2. Qualificação do impetrante
            3. Qualificação da autoridade coatora
            4. Dos fatos (reescritos de forma jurídica e estratégica)
            5. Do direito líquido e certo (fundamentos jurídicos detalhados, incluindo legislação e jurisprudência relevantes)
            6. Da liminar (demonstrando o fumus boni iuris e o periculum in mora)
            7. Dos pedidos (liminar e principal)
            8. Fechamento com local, data e espaço para assinatura
            
            Use linguagem formal e técnica jurídica apropriada. Seja persuasivo e estratégico na argumentação.
            
            BASE DE CONHECIMENTO JURÍDICO:
            - Constituição Federal (art. 5º, LXIX e LXX)
            - Lei 12.016/2009 (Lei do Mandado de Segurança)
            - Lei 14.133/2021 (Nova Lei de Licitações e Contratos Administrativos) - para casos envolvendo licitações
            - Jurisprudência do STF e STJ sobre mandado de segurança
            - Súmulas relacionadas ao mandado de segurança
            - Princípios do Direito Administrativo (legalidade, impessoalidade, moralidade, publicidade, eficiência, etc.)
            - Princípios do Direito Constitucional
            - Legislação específica relacionada ao caso concreto
            "),
  ("contrarrazoes_recurso",
   "
            Você é um advogado especialista em direito administrativo, com vasta experiência em contrarrazões de recurso, especialmente em processos licitatórios.
            
            TIPO DE PETIÇÃO: Contrarrazões de Recurso
            
            FATOS APRESENTADOS PELO CLIENTE:
            {fatos}
            
            CLIENTE:
            Nome: {cliente_nome}
            CNPJ/CPF: {cliente_cnpj}
            
            REFERÊNCIA DO PROCESSO (se fornecida):
            {referencia_processo}
            
            AUTORIDADE (se fornecida):
            {autoridade}
            
            CIDADE:
            {cidade}
            
            INSTRUÇÕES:
            
            1. Analise cuidadosamente os fatos apresentados pelo cliente.
            2. Identifique o tipo específico de recurso ao qual se está respondendo.
            3. Desenvolva uma estratégia jurídica sólida para contrapor os argumentos do recorrente.
            4. Avalie a necessidade de arguir preliminares (intempestividade, ilegitimidade, etc.).
            5. Formule pedidos adequados e pertinentes ao caso.
            6. Gere contrarrazões de recurso completas e persuasivas.
            7. IMPORTANTE: Se o caso envolver licitações, NÃO utilize a Lei 8.666/93, pois foi revogada pela Lei 14.133/2021 (Nova Lei de Licitações).
            
            A petição deve ser estruturada com:
            1. Cabeçalho com dados do processo e autoridade
            2. Qualificação do recorrido
            3. Dos fatos (reescritos de forma jurídica e estratégica)
            4. Das preliminares (se aplicável)
            5. Do mérito (refutando os argumentos do recurso)
            6. Dos pedidos (elaborados de acordo com a estratégia jurídica)
            7. Fechamento com local, data e espaço para assinatura
            
            Use linguagem formal e técnica jurídica apropriada. Seja persuasivo e estratégico na argumentação.
            
            BASE DE CONHECIMENTO JURÍDICO:
            - Lei 14.133/2021 (Nova Lei de Licitações e Contratos Administrativos)
            - Lei 9.784/99 (Processo Administrativo Federal)
            - Lei 10.520/2002 (Pregão)
            - Decreto 10.024/2019 (Pregão Eletrônico)
            - Jurisprudência do TCU sobre licitações
            - Princípios do Direito Administrativo (legalidade, impessoalidade, moralidade, publicidade, eficiência, etc.)
            - Princípios específicos de licitações (competitividade, julgamento objetivo, vinculação ao instrumento convocatório, etc.)
            "),
  ("gramatica",
   "
            Você é um especialista em revisão gramatical e ortográfica de documentos jurídicos.
            
            TIPO DE PETIÇÃO: {tipo}
            
            TEXTO DA PETIÇÃO:
            {texto}
            
            Revise o texto acima considerando os seguintes aspectos:
            1. Correção ortográfica (erros de digitação, palavras incorretas)
            2. Concordância verbal e nominal
            3. Regência verbal e nominal
            4. Uso correto de pronomes e conectivos
            5. Pontuação e acentuação
            6. Identificação e correção de palavras incorretas (como \"Concórdia\" quando deveria ser \"Concorrência\")
            
            Retorne o texto revisado, corrigindo todos os erros gramaticais e ortográficos, mas mantendo o conteúdo jurídico original.
            ")
]
/-- The `templates` dict of `ReviewerAgent._load_specialty_template`. -/
def reviewer_templates : List (String × String) := [
  ("juridico",
   "
            Você é um advogado especializado em revisão jurídica de petições.
            
            TIPO DE PETIÇÃO: {tipo}
            
            TEXTO DA PETIÇÃO:
            {texto}
            
            Revise o texto acima considerando os seguintes aspectos:
            1. Adequação dos fundamentos jurídicos
            2. Coerência dos argumentos
            3. Pertinência dos pedidos
            4. Conformidade com a legislação e jurisprudência
            5. Correção de eventuais erros jurídicos
            
            Retorne o texto revisado, mantendo a formatação original.
            "),
  ("formatacao",
   "
            Você é um especialista em formatação de documentos jurídicos.
            
            TIPO DE PETIÇÃO: {tipo}
            
            TEXTO DA PETIÇÃO:
            {texto}
            
            Revise o texto acima considerando os seguintes aspectos:
            1. Estrutura e organização do documento
            2. Formatação dos parágrafos e seções
            3. Numeração de páginas e itens
            4. Alinhamento e espaçamento
            5. Destaques e citações
            
            Retorne o texto revisado, aplicando a formatação adequada.
            "),
  ("linguagem",
   "
            Você é um especialista em revisão linguística de documentos jurídicos.
            
            TIPO DE PETIÇÃO: {tipo}
            
            TEXTO DA PETIÇÃO:
            {texto}
            
            Revise o texto acima considerando os seguintes aspectos:
            1. Correção gramatical e ortográfica
            2. Clareza e objetividade
            3. Adequação do vocabulário jurídico
            4. Coesão e coerência textual
            5. Pontuação e acentuação
            
            Retorne o texto revisado, mantendo o conteúdo jurídico original.
            "),
  ("gramatica",
   "
            Você é um especialista em revisão gramatical e ortográfica de documentos jurídicos.
            
            TIPO DE PETIÇÃO: {tipo}
            
            TEXTO DA PETIÇÃO:
            {texto}
            
            Revise o texto acima considerando os seguintes aspectos:
            1. Correção ortográfica (erros de digitação, palavras incorretas)
            2. Concordância verbal e nominal
            3. Regência verbal e nominal
            4. Uso correto de pronomes e conectivos
            5. Pontuação e acentuação
            6. Identificação e correção de palavras incorretas (como \"Concórdia\" quando deveria ser \"Concorrência\")
            
            Retorne o texto revisado, corrigindo todos os erros gramaticais e ortográficos, mas mantendo o conteúdo jurídico original.
            ")
]

/-- Shared body of the two `_load_specialty_template` methods (they are
identical up to the table): `if specialty not in templates: raise
ValueError(f"Especialidade não suportada: ...")` then `templates[specialty]`. -/
def load_template_table (tbl : List (String × String)) (specialty : String) :
    Except PipelineError String :=
  match tbl.find? (fun kv => kv.1 == specialty) with
  | none => .error (.unsupportedSpecialty specialty)
  | some kv => .ok kv.2

/-- `GeneratorAgent._load_specialty_template`: return the built-in template
for the specialty, or raise `ValueError("Especialidade não suportada: ...")`
when the specialty is not a key of the table. -/
def generator_load_specialty_template (specialty : String) :
    Except PipelineError String :=
  load_template_table generator_templates specialty

/-- `ReviewerAgent._load_specialty_template`: same lookup over the reviewer
table. -/
def reviewer_load_specialty_template (specialty : String) :
    Except PipelineError String :=
  load_template_table reviewer_templates specialty

/-! ### The model catalog (`utils/db_manager.py`) -/

/-- A row of the `agent_models` table.  The schema declares `name`,
`model_id`, `type`, `specialty` and `prompt_template` as `TEXT NOT NULL`;
the autoincrement id and the creation timestamp play no role in the pipeline
and are omitted. -/
structure AgentModel where
  name : String
  description : String
  model_id : String
  type : String
  specialty : String
  prompt_template : String
  deriving DecidableEq

/-- The `agent_models` table in storage order. -/
abbrev AgentDB := List AgentModel

/-- `DatabaseManager.get_agent_model_by_specialty` (utils/db_manager.py,
lines 234-256): `SELECT * FROM agent_models WHERE type = ? AND specialty = ?`
followed by `fetchone()`, i.e. the first matching row, and `None` when no
row matches — absence is returned, never raised. -/
def get_agent_model_by_specialty (db : AgentDB) (agent_type specialty : String) :
    Option AgentModel :=
  db.find? (fun m => m.type == agent_type && m.specialty == specialty)

/-! ### The orchestrator (`AgentOrchestrator.generate_petition`)

The orchestrator builds each agent through `_create_generator_agent` /
`_create_reviewer_agent`, which pass the row's `prompt_template` (a non-null
string by the schema) to the agent constructor, so the constructors never
fall back to the built-in templates during a pipeline run.

To let theorems speak about what each reviewer stage was given, the embedding
additionally records a trace of the agent invocations the Python code makes:
the context handed to the generator, and for each reviewer call its
specialty, the value of `current_text` at the call, the fresh two-key context
built for it, and the call's outcome.  The trace is pure observation; the
computation is exactly the source's. -/

/-- One reviewer-agent invocation as made by `generate_petition`. -/
structure RevCall where
  /-- The reviewer specialty looked up for this stage. -/
  specialty : String
  /-- The value of the orchestrator's `current_text` local when the stage
  ran (the latest text). -/
  input : String
  /-- The fresh context dict the stage builds for its agent. -/
  ctx : Ctx
  /-- The text the agent returned, or `none` when the call raised. -/
  output : Option String
  deriving DecidableEq

/-- The orchestrator's locals while the reviewer stages run: the `results`
dict in insertion order, `current_text`, the invocation trace, and the
pending exception if a stage raised (Python's exception propagation made
explicit). -/
structure PState where
  results : List (String × String)
  current : String
  calls : List RevCall
  err : Option PipelineError
  deriving DecidableEq

/-- One reviewer block of `generate_petition` (utils/agents.py; the four
blocks at lines 524-587 differ only in the specialty string and the result
key, which coincide).  If an earlier stage raised, the block does not run;
if the binding is absent the stage is skipped with a warning and
`current_text` is untouched; otherwise a fresh `{tipo, texto}` context is
built and the reviewer agent runs, recording its output and advancing
`current_text`. -/
def run_reviewer_stage (db : AgentDB) (ai : AIClient) (specialty petition_type : String)
    (st : PState) : PState :=
  match st.err with
  | some _ => st
  | none =>
    match get_agent_model_by_specialty db "reviewer" specialty with
    | none => st
    | some m =>
      let rctx : Ctx := [("tipo", petition_type), ("texto", st.current)]
      match (agent_generate ai m.model_id m.prompt_template rctx).1 with
      | .error e =>
        { st with calls := st.calls ++ [⟨specialty, st.current, rctx, none⟩],
                  err := some e }
      | .ok t =>
        { results := st.results ++ [(specialty, t)],
          current := t,
          calls := st.calls ++ [⟨specialty, st.current, rctx, some t⟩],
          err := none }

/-- Decidable equality for `Except`, needed to evaluate concrete pipeline
outcomes in witnesses. -/
instance {ε α : Type} [DecidableEq ε] [DecidableEq α] : DecidableEq (Except ε α) := fun a b =>
  match a, b with
  | .error e, .error f => decidable_of_iff (e = f) (by simp)
  | .error _, .ok _ => isFalse (by simp)
  | .ok _, .error _ => isFalse (by simp)
  | .ok x, .ok y => decidable_of_iff (x = y) (by simp)

/-- Observable outcome of one `generate_petition` invocation: the returned
`results` dict or the exception that escaped, the caller's context after the
call, and the trace of agent invocations. -/
structure PipelineRun where
  result : Except PipelineError (List (String × String))
  finalContext : Ctx
  genCalls : List Ctx
  revCalls : List RevCall
  deriving DecidableEq

/-- `AgentOrchestrator.generate_petition` (utils/agents.py, lines 496-595).
Stage 1 resolves the generator binding for `context.get("tipo", "")`; a
missing binding is fatal (`noGenerator`) before any client call.  Stages 2-5
run the reviewer blocks in the fixed order gramatica, juridico, linguagem,
formatacao; the source initialises `current_text` in stage 2's two branches,
which is equivalent to initialising it to the generator output before stage 2
as done here.  Finally the latest text is recorded under `"final"`. -/
def generate_petition (db : AgentDB) (ai : AIClient) (context : Ctx) : PipelineRun :=
  let petition_type := (ctxGet context "tipo").getD ""
  match get_agent_model_by_specialty db "generator" petition_type with
  | none => ⟨.error (.noGenerator petition_type), context, [], []⟩
  | some gm =>
    match agent_generate ai gm.model_id gm.prompt_template context with
    | (.error e, ctx1) => ⟨.error e, ctx1, [context], []⟩
    | (.ok original_text, ctx1) =>
      let st0 : PState := ⟨[("original", original_text)], original_text, [], none⟩
      let st1 := run_reviewer_stage db ai "gramatica" petition_type st0
      let st2 := run_reviewer_stage db ai "juridico" petition_type st1
      let st3 := run_reviewer_stage db ai "linguagem" petition_type st2
      let st4 := run_reviewer_stage db ai "formatacao" petition_type st3
      match st4.err with
      | some e => ⟨.error e, ctx1, [context], st4.calls⟩
      | none => ⟨.ok (st4.results ++ [("final", st4.current)]), ctx1, [context], st4.calls⟩

/-- The fixed reviewer stage order of `generate_petition`. -/
def reviewer_stage_order : List String :=
  ["gramatica", "juridico", "linguagem", "formatacao"]

/-- The text the next reviewer stage should receive given the trace so far:
the generator output `expect` when no reviewer has run, otherwise the last
recorded call's output. -/
def lastOut (expect : Option String) (cs : List RevCall) : Option String :=
  match cs.getLast? with
  | none => expect
  | some c => c.output

/-- The trace forms a chain: the first reviewer call consumed `expect` (the
generator output) and every later call consumed the previous call's output. -/
def chainFrom : Option String → List RevCall → Prop
  | _, [] => True
  | expect, c :: cs => some c.input = expect ∧ chainFrom c.output cs

/-- Invariant threaded through the four reviewer stages: the trace chains
from the generator output `t0`, the latest text is the last chained output
while no exception is pending, every recorded call received exactly the fresh
two-key context `\x7btipo: pt, texto: latest\x7d`, and the results dict still
starts with the `original` entry. -/
def StInv (t0 pt : String) (st : PState) : Prop :=
  chainFrom (some t0) st.calls ∧
  (st.err = none → lastOut (some t0) st.calls = some st.current) ∧
  (∀ c ∈ st.calls, c.ctx = [("tipo", pt), ("texto", c.input)]) ∧
  (∃ tl, st.results = ("original", t0) :: tl)

/-- The state after the four reviewer blocks, starting from the generator
output `t0` (the value of `current_text` entering stage 2). -/
def stagesAfter (db : AgentDB) (ai : AIClient) (pt t0 : String) : PState :=
  run_reviewer_stage db ai "formatacao" pt
    (run_reviewer_stage db ai "linguagem" pt
      (run_reviewer_stage db ai "juridico" pt
        (run_reviewer_stage db ai "gramatica" pt
          ⟨[("original", t0)], t0, [], none⟩)))

/-- The tail of `generate_petition` once the generator stage has produced a
text: append the `final` entry, or let the pending stage exception escape. -/
def finishRun (context : Ctx) (st : PState) : PipelineRun :=
  match st.err with
  | some e => ⟨.error e, context, [context], st.calls⟩
  | none => ⟨.ok (st.results ++ [("final", st.current)]), context, [context], st.calls⟩

/-! ### Concrete fixtures used by the witnesses -/

/-- A client oracle that always answers with one choice of fixed text. -/
def aiFixed : AIClient := fun _ _ => .ok ⟨some [⟨some "texto gerado"⟩]⟩

/-- A catalog with the generator for `recurso_administrativo` and all four
reviewer bindings, each with a placeholder-free custom template. -/
def dbFull : AgentDB :=
  [⟨"g", "", "m0", "generator", "recurso_administrativo", "gere a partir de: \x7bfatos\x7d"⟩,
   ⟨"r1", "", "m1", "reviewer", "gramatica", "revise"⟩,
   ⟨"r2", "", "m2", "reviewer", "juridico", "revise"⟩,
   ⟨"r3", "", "m3", "reviewer", "linguagem", "revise"⟩,
   ⟨"r4", "", "m4", "reviewer", "formatacao", "revise"⟩]

/-- Same catalog without the `juridico` reviewer binding. -/
def dbNoJuridico : AgentDB :=
  [⟨"g", "", "m0", "generator", "recurso_administrativo", "gere a partir de: \x7bfatos\x7d"⟩,
   ⟨"r1", "", "m1", "reviewer", "gramatica", "revise"⟩,
   ⟨"r3", "", "m3", "reviewer", "linguagem", "revise"⟩,
   ⟨"r4", "", "m4", "reviewer", "formatacao", "revise"⟩]

/-- A catalog holding only the generator binding. -/
def dbGeneratorOnly : AgentDB :=
  [⟨"g", "", "m0", "generator", "recurso_administrativo", "gere a partir de: \x7bfatos\x7d"⟩]

/-- A well-formed case context for the fixtures. -/
def ctxCase : Ctx := [("tipo", "recurso_administrativo"), ("fatos", "houve inabilitação indevida")]

/-- A case context with no `tipo` key. -/
def ctxSemTipo : Ctx := [("fatos", "houve inabilitação indevida")]

/-! ### Helper lemmas about one reviewer stage -/

/-- A stage with a pending exception does not run. -/
theorem run_reviewer_stage_of_err {db : AgentDB} {ai : AIClient} {s pt : String}
    {st : PState} {e : PipelineError} (herr : st.err = some e) :
    run_reviewer_stage db ai s pt st = st := by
  simp [run_reviewer_stage, herr]

/-- A stage whose reviewer binding is absent is skipped. -/
theorem run_reviewer_stage_of_absent {db : AgentDB} {ai : AIClient} {s pt : String}
    {st : PState} (hfind : get_agent_model_by_specialty db "reviewer" s = none) :
    run_reviewer_stage db ai s pt st = st := by
  cases herr : st.err with
  | some e => exact run_reviewer_stage_of_err herr
  | none => simp [run_reviewer_stage, herr, hfind]

/-- A stage whose binding is present and whose agent call succeeds records the
output and advances the latest text. -/
theorem run_reviewer_stage_of_ok {db : AgentDB} {ai : AIClient} {s pt : String}
    {st : PState} {m : AgentModel} {t : String}
    (herr : st.err = none)
    (hfind : get_agent_model_by_specialty db "reviewer" s = some m)
    (hgen : agent_generate_result ai m.model_id m.prompt_template
      [("tipo", pt), ("texto", st.current)] = .ok t) :
    run_reviewer_stage db ai s pt st =
      ⟨st.results ++ [(s, t)], t,
       st.calls ++ [⟨s, st.current, [("tipo", pt), ("texto", st.current)], some t⟩],
       none⟩ := by
  simp [run_reviewer_stage, herr, hfind, agent_generate, hgen]

/-- A stage whose binding is present and whose agent call raises records the
failed call and the pending exception. -/
theorem run_reviewer_stage_of_fail {db : AgentDB} {ai : AIClient} {s pt : String}
    {st : PState} {m : AgentModel} {e : PipelineError}
    (herr : st.err = none)
    (hfind : get_agent_model_by_specialty db "reviewer" s = some m)
    (hgen : agent_generate_result ai m.model_id m.prompt_template
      [("tipo", pt), ("texto", st.current)] = .error e) :
    run_reviewer_stage db ai s pt st =
      { st with
        calls := st.calls ++ [⟨s, st.current, [("tipo", pt), ("texto", st.current)], none⟩],
        err := some e } := by
  simp [run_reviewer_stage, herr, hfind, agent_generate, hgen]

/-- If no exception is pending after a stage, none was pending before it. -/
theorem err_none_before_stage {db : AgentDB} {ai : AIClient} {s pt : String}
    {st : PState} (h : (run_reviewer_stage db ai s pt st).err = none) :
    st.err = none := by
  cases herr : st.err with
  | none => rfl
  | some e => rw [run_reviewer_stage_of_err herr] at h; rw [herr] at h; exact h

/-- A stage that finishes without a pending exception appends exactly its own
specialty to the trace when its binding is present, and nothing otherwise. -/
theorem stage_calls_map {db : AgentDB} {ai : AIClient} {s pt : String}
    {st : PState} (h : (run_reviewer_stage db ai s pt st).err = none) :
    (run_reviewer_stage db ai s pt st).calls.map RevCall.specialty =
      st.calls.map RevCall.specialty ++
        (if (get_agent_model_by_specialty db "reviewer" s).isSome then [s] else []) := by
  have herr : st.err = none := err_none_before_stage h
  cases hfind : get_agent_model_by_specialty db "reviewer" s with
  | none => rw [run_reviewer_stage_of_absent hfind]; simp [hfind]
  | some m =>
    cases hgen : agent_generate_result ai m.model_id m.prompt_template
        [("tipo", pt), ("texto", st.current)] with
    | error e =>
      rw [run_reviewer_stage_of_fail herr hfind hgen] at h
      simp at h
    | ok t =>
      rw [run_reviewer_stage_of_ok herr hfind hgen]
      simp [hfind]

/-- The returned value of `PetitionAgent.generate` is never the
orchestrator's missing-generator `ValueError`: the agent either fails while
formatting, fails with a client error, or fails extracting the first choice. -/
theorem agent_generate_result_ne_noGenerator (ai : AIClient) (mid tmpl : String)
    (ctx : Ctx) (x : String) :
    agent_generate_result ai mid tmpl ctx ≠ .error (.noGenerator x) := by
  unfold agent_generate_result
  cases hf : format_prompt tmpl ctx with
  | error e =>
    unfold format_prompt at hf
    cases ht : tokenize tmpl with
    | none => simp [ht] at hf; simp [← hf]
    | some ts =>
      simp [ht] at hf
      cases hr : render ctx ts with
      | error k => simp [hr] at hf; simp [← hf]
      | ok s => simp [hr] at hf
  | ok p =>
    cases hai : ai mid p with
    | error e => simp [hai]
    | ok response =>
      simp only [hai]
      cases hc : response.choices with
      | none => simp [extract_generated_text, hc]
      | some cs => cases cs <;> simp [extract_generated_text, hc]

/-- A stage can only raise what its agent call raised: an exception coming
out of a stage either was already pending or is an agent failure, never the
missing-generator `ValueError`. -/
theorem stage_err_source {db : AgentDB} {ai : AIClient} {s pt : String}
    {st : PState} {e : PipelineError}
    (h : (run_reviewer_stage db ai s pt st).err = some e) :
    st.err = some e ∨ ∀ x, e ≠ .noGenerator x := by
  cases herr : st.err with
  | some f =>
    rw [run_reviewer_stage_of_err herr] at h
    exact Or.inl (herr.symm.trans h)
  | none =>
    cases hfind : get_agent_model_by_specialty db "reviewer" s with
    | none => rw [run_reviewer_stage_of_absent hfind, herr] at h; cases h
    | some m =>
      cases hgen : agent_generate_result ai m.model_id m.prompt_template
          [("tipo", pt), ("texto", st.current)] with
      | error f =>
        rw [run_reviewer_stage_of_fail herr hfind hgen] at h
        simp at h
        refine Or.inr fun x hx => ?_
        rw [h, hx] at hgen
        exact agent_generate_result_ne_noGenerator ai m.model_id m.prompt_template _ x hgen
      | ok t =>
        rw [run_reviewer_stage_of_ok herr hfind hgen] at h
        cases h

/-! ### The latest-text chain through the reviewer trace -/

theorem lastOut_concat (e : Option String) (cs : List RevCall) (c : RevCall) :
    lastOut e (cs ++ [c]) = c.output := by
  simp [lastOut, List.getLast?_concat]

theorem lastOut_cons (e : Option String) (d : RevCall) (cs : List RevCall) :
    lastOut e (d :: cs) = lastOut d.output cs := by
  rcases List.eq_nil_or_concat cs with rfl | ⟨ys, y, rfl⟩
  · rfl
  · simp only [List.concat_eq_append]
    show lastOut e ((d :: ys) ++ [y]) = _
    rw [lastOut_concat, lastOut_concat]

theorem chainFrom_concat {e : Option String} {cs : List RevCall} {c : RevCall}
    (h1 : chainFrom e cs) (h2 : some c.input = lastOut e cs) :
    chainFrom e (cs ++ [c]) := by
  induction cs generalizing e with
  | nil => exact ⟨h2, trivial⟩
  | cons d cs ih =>
    rw [lastOut_cons] at h2
    exact ⟨h1.1, ih h1.2 h2⟩

theorem StInv_init (t0 pt : String) :
    StInv t0 pt ⟨[("original", t0)], t0, [], none⟩ := by
  refine ⟨trivial, fun _ => rfl, by simp, ⟨[], rfl⟩⟩

theorem StInv_preserved {t0 pt : String} {db : AgentDB} {ai : AIClient}
    {s : String} {st : PState} (h : StInv t0 pt st) :
    StInv t0 pt (run_reviewer_stage db ai s pt st) := by
  obtain ⟨hchain, hlast, hctx, tl, hres⟩ := h
  cases herr : st.err with
  | some e => rw [run_reviewer_stage_of_err herr]; exact ⟨hchain, hlast, hctx, tl, hres⟩
  | none =>
    cases hfind : get_agent_model_by_specialty db "reviewer" s with
    | none => rw [run_reviewer_stage_of_absent hfind]; exact ⟨hchain, hlast, hctx, tl, hres⟩
    | some m =>
      cases hgen : agent_generate_result ai m.model_id m.prompt_template
          [("tipo", pt), ("texto", st.current)] with
      | error e =>
        rw [run_reviewer_stage_of_fail herr hfind hgen]
        refine ⟨chainFrom_concat hchain ?_, by simp, ?_, tl, hres⟩
        · exact (hlast herr).symm
        · intro c hc
          rcases List.mem_append.mp hc with hold | hnew
          · exact hctx c hold
          · rcases List.mem_singleton.mp hnew with rfl
            rfl
      | ok t =>
        rw [run_reviewer_stage_of_ok herr hfind hgen]
        refine ⟨chainFrom_concat hchain ?_, ?_, ?_, ?_⟩
        · exact (hlast herr).symm
        · intro _
          simp [lastOut_concat]
        · intro c hc
          rcases List.mem_append.mp hc with hold | hnew
          · exact hctx c hold
          · rcases List.mem_singleton.mp hnew with rfl
            rfl
        · exact ⟨tl ++ [(s, t)], by simp [hres]⟩

/-! ### Characterizations of `generate_petition` -/

/-- With no generator binding for the (possibly defaulted) petition type, the
pipeline raises `noGenerator` and makes no agent call at all. -/
theorem generate_petition_of_noGen {db : AgentDB} {ai : AIClient} {context : Ctx}
    (hfind : get_agent_model_by_specialty db "generator"
      ((ctxGet context "tipo").getD "") = none) :
    generate_petition db ai context =
      ⟨.error (.noGenerator ((ctxGet context "tipo").getD "")), context, [], []⟩ := by
  simp [generate_petition, hfind]

/-- With a generator binding whose agent call fails, the pipeline aborts with
that failure after the single generator call. -/
theorem generate_petition_of_genFail {db : AgentDB} {ai : AIClient} {context : Ctx}
    {gm : AgentModel} {e : PipelineError}
    (hfind : get_agent_model_by_specialty db "generator"
      ((ctxGet context "tipo").getD "") = some gm)
    (hgen : agent_generate_result ai gm.model_id gm.prompt_template context = .error e) :
    generate_petition db ai context = ⟨.error e, context, [context], []⟩ := by
  simp [generate_petition, hfind, agent_generate, hgen]

/-- With a generator binding whose agent call produces `t0`, the pipeline is
the four reviewer blocks followed by the `final` record. -/
theorem generate_petition_of_genOk {db : AgentDB} {ai : AIClient} {context : Ctx}
    {gm : AgentModel} {t0 : String}
    (hfind : get_agent_model_by_specialty db "generator"
      ((ctxGet context "tipo").getD "") = some gm)
    (hgen : agent_generate_result ai gm.model_id gm.prompt_template context = .ok t0) :
    generate_petition db ai context =
      finishRun context (stagesAfter db ai ((ctxGet context "tipo").getD "") t0) := by
  simp only [generate_petition, hfind, agent_generate, hgen, stagesAfter, finishRun]

/-! ### Template resolution (claims C5) -/

/-- Resolution succeeds exactly on the keys of the table. -/
theorem load_template_table_mem (tbl : List (String × String)) (s : String) :
    (∃ t, load_template_table tbl s = .ok t) ↔ s ∈ tbl.map Prod.fst := by
  unfold load_template_table
  cases hf : tbl.find? (fun kv => kv.1 == s) with
  | none =>
    simp only [hf]
    constructor
    · rintro ⟨t, ht⟩; cases ht
    · intro hmem
      exfalso
      obtain ⟨x, hx, hxs⟩ := List.mem_map.mp hmem
      have hnx := List.find?_eq_none.mp hf x hx
      simp [hxs] at hnx
  | some kv =>
    simp only [hf]
    constructor
    · intro _
      have hsome : (tbl.find? (fun kv => kv.1 == s)).isSome := by rw [hf]; rfl
      obtain ⟨x, hx, hpx⟩ := List.find?_isSome.mp hsome
      exact List.mem_map.mpr ⟨x, hx, by simpa using hpx⟩
    · intro _; exact ⟨kv.2, rfl⟩

/-- Resolution on a non-key fails with the unsupported-specialty error. -/
theorem load_template_table_not_found {tbl : List (String × String)} {s : String}
    (h : s ∉ tbl.map Prod.fst) :
    load_template_table tbl s = .error (.unsupportedSpecialty s) := by
  unfold load_template_table
  have hf : tbl.find? (fun kv => kv.1 == s) = none := by
    rw [List.find?_eq_none]
    intro x hx
    simp only [beq_iff_eq]
    intro hxs
    exact h (List.mem_map.mpr ⟨x, hx, hxs⟩)
  rw [hf]

/-- C5 counterexample: the generator template table resolves five pairwise
distinct specialties (the four petition types and `gramatica`), so there is
no set of four generator specialties outside which resolution always fails. -/
theorem generator_template_table_has_five_specialties :
    (generator_load_specialty_template "recurso_administrativo").isOk = true
  ∧ (generator_load_specialty_template "impugnacao_edital").isOk = true
  ∧ (generator_load_specialty_template "mandado_seguranca").isOk = true
  ∧ (generator_load_specialty_template "contrarrazoes_recurso").isOk = true
  ∧ (generator_load_specialty_template "gramatica").isOk = true
  ∧ ["recurso_administrativo", "impugnacao_edital", "mandado_seguranca",
     "contrarrazoes_recurso", "gramatica"].Nodup := by
  exact ⟨rfl, rfl, rfl, rfl, rfl, by decide⟩

/-- C5 amended: template resolution succeeds with a built-in template for
exactly the five generator-table specialties (the four petition types plus
`gramatica`) and exactly the four reviewer-table specialties, and for every
other specialty it fails with the unsupported-specialty error. -/
theorem load_specialty_template_closed_sets (s : String) :
    ((∃ t, generator_load_specialty_template s = .ok t) ↔
      s ∈ ["recurso_administrativo", "impugnacao_edital", "mandado_seguranca",
           "contrarrazoes_recurso", "gramatica"])
  ∧ ((∃ t, reviewer_load_specialty_template s = .ok t) ↔
      s ∈ ["juridico", "formatacao", "linguagem", "gramatica"])
  ∧ (s ∉ ["recurso_administrativo", "impugnacao_edital", "mandado_seguranca",
          "contrarrazoes_recurso", "gramatica"] →
      generator_load_specialty_template s = .error (.unsupportedSpecialty s))
  ∧ (s ∉ ["juridico", "formatacao", "linguagem", "gramatica"] →
      reviewer_load_specialty_template s = .error (.unsupportedSpecialty s)) := by
  have hg : generator_templates.map Prod.fst =
      ["recurso_administrativo", "impugnacao_edital", "mandado_seguranca",
       "contrarrazoes_recurso", "gramatica"] := rfl
  have hr : reviewer_templates.map Prod.fst =
      ["juridico", "formatacao", "linguagem", "gramatica"] := rfl
  refine ⟨?_, ?_, ?_, ?_⟩
  · rw [show generator_load_specialty_template s =
        load_template_table generator_templates s from rfl,
      load_template_table_mem, hg]
  · rw [show reviewer_load_specialty_template s =
        load_template_table reviewer_templates s from rfl,
      load_template_table_mem, hr]
  · intro hmem
    exact load_template_table_not_found (by rw [hg]; exact hmem)
  · intro hmem
    exact load_template_table_not_found (by rw [hr]; exact hmem)

/-- Witness for the amended C5 at concrete specialties: an unknown specialty
fails on both tables, and a generator-only specialty fails on the reviewer
table. -/
theorem load_specialty_template_closed_sets_witness :
    generator_load_specialty_template "desconhecida" =
        .error (.unsupportedSpecialty "desconhecida")
  ∧ reviewer_load_specialty_template "recurso_administrativo" =
        .error (.unsupportedSpecialty "recurso_administrativo") := by
  exact ⟨(load_specialty_template_closed_sets "desconhecida").2.2.1 (by decide),
         (load_specialty_template_closed_sets "recurso_administrativo").2.2.2 (by decide)⟩

/-! ### Prompt rendering (claims C6, C7) -/

/-- If some referenced field is missing from the context, rendering fails
with a missing field's name. -/
theorem render_error_of_missing {ctx : Ctx} {ts : List Tok}
    (h : ∃ p ∈ phNames ts, ctxGet ctx p = none) :
    ∃ k, k ∈ phNames ts ∧ ctxGet ctx k = none ∧ render ctx ts = .error k := by
  induction ts with
  | nil => simp [phNames] at h
  | cons t ts ih =>
    cases t with
    | lit c =>
      have h2 : ∃ p ∈ phNames ts, ctxGet ctx p = none := by simpa [phNames] using h
      obtain ⟨k, hk1, hk2, hk3⟩ := ih h2
      exact ⟨k, by simpa [phNames] using hk1, hk2, by simp [render, hk3, Except.map]⟩
    | ph n =>
      cases hn : ctxGet ctx n with
      | none => exact ⟨n, by simp [phNames], hn, by simp [render, hn]⟩
      | some v =>
        have h2 : ∃ p ∈ phNames ts, ctxGet ctx p = none := by
          rcases h with ⟨p, hp, hpn⟩
          rcases (by simpa [phNames] using hp : p = n ∨ p ∈ phNames ts) with rfl | hptail
          · rw [hn] at hpn; cases hpn
          · exact ⟨p, hptail, hpn⟩
        obtain ⟨k, hk1, hk2, hk3⟩ := ih h2
        exact ⟨k, by simp [phNames, hk1], hk2, by simp [render, hn, hk3, Except.map]⟩

/-- If every referenced field has a value, rendering succeeds. -/
theorem render_ok_of_present {ctx : Ctx} {ts : List Tok}
    (h : ∀ p ∈ phNames ts, (ctxGet ctx p).isSome) :
    ∃ s, render ctx ts = .ok s := by
  induction ts with
  | nil => exact ⟨"", rfl⟩
  | cons t ts ih =>
    cases t with
    | lit c =>
      obtain ⟨s, hs⟩ := ih (by simpa [phNames] using h)
      exact ⟨String.mk (c :: s.data), by simp [render, hs, Except.map]⟩
    | ph n =>
      have hn : (ctxGet ctx n).isSome := h n (by simp [phNames])
      obtain ⟨v, hv⟩ := Option.isSome_iff_exists.mp hn
      obtain ⟨s, hs⟩ := ih (fun p hp => h p (by simp [phNames, hp]))
      exact ⟨v ++ s, by simp [render, hv, hs, Except.map]⟩

/-- A context entry whose key is not referenced does not change rendering. -/
theorem render_extra_key {ts : List Tok} (k v : String) (ctx : Ctx)
    (hk : k ∉ phNames ts) :
    render ((k, v) :: ctx) ts = render ctx ts := by
  induction ts with
  | nil => rfl
  | cons t ts ih =>
    cases t with
    | lit c =>
      have := ih (by simpa [phNames] using hk)
      simp [render, this]
    | ph n =>
      have hkn : ¬(k = n) := fun hh => hk (by simp [phNames, hh])
      have htail : k ∉ phNames ts := fun hh => hk (by simp [phNames, hh])
      have := ih htail
      simp [render, ctxGet, hkn, this]

/-- C6: for every well-formed template and context, when any placeholder
referenced by the template is absent from the context, prompt rendering fails
with the `incompleteContext` `ValueError` naming a missing key and produces
no rendered prompt, and the failing stage's `PetitionAgent.generate` fails
identically before any client call. -/
theorem format_prompt_incomplete_context (template : String) (ctx : Ctx)
    (ps : List String) (hps : placeholders template = some ps)
    (hmiss : ∃ p ∈ ps, ctxGet ctx p = none) :
    ∃ k, k ∈ ps ∧ ctxGet ctx k = none
      ∧ format_prompt template ctx = .error (.incompleteContext k)
      ∧ ∀ (ai : AIClient) (mid : String),
          (agent_generate ai mid template ctx).1 = .error (.incompleteContext k) := by
  obtain ⟨ts, hts, hph⟩ : ∃ ts, tokenize template = some ts ∧ phNames ts = ps := by
    unfold placeholders at hps
    cases h : tokenize template with
    | none => rw [h] at hps; cases hps
    | some ts => rw [h] at hps; exact ⟨ts, rfl, by simpa using hps⟩
  subst hph
  obtain ⟨k, hk1, hk2, hk3⟩ := render_error_of_missing hmiss
  refine ⟨k, hk1, hk2, ?_, ?_⟩
  · simp [format_prompt, hts, hk3]
  · intro ai mid
    simp [agent_generate, agent_generate_result, format_prompt, hts, hk3]

/-- Witness for C6: the reviewer-shaped template with a context missing
`texto` fails naming `texto`, in rendering and through the agent. -/
theorem format_prompt_incomplete_context_witness :
    format_prompt "TIPO: {tipo} TEXTO: {texto}" [("tipo", "recurso")] =
        .error (.incompleteContext "texto")
  ∧ (agent_generate (fun _ _ => .ok ⟨none⟩) "m" "TIPO: {tipo} TEXTO: {texto}"
      [("tipo", "recurso")]).1 = .error (.incompleteContext "texto") := by
  obtain ⟨k, hk1, hk2, hk3, hk4⟩ := format_prompt_incomplete_context
    "TIPO: {tipo} TEXTO: {texto}" [("tipo", "recurso")] ["tipo", "texto"]
    (by decide) (by decide)
  have h2 : Except.error (PipelineError.incompleteContext k) =
      Except.error (PipelineError.incompleteContext "texto") :=
    hk3.symm.trans (by decide)
  injection h2 with h3
  injection h3 with h4
  subst h4
  exact ⟨hk3, hk4 _ "m"⟩

/-- C7: for every well-formed template and every context providing a value
for each referenced placeholder, rendering succeeds, and an extra context
entry with an unreferenced key never changes the outcome. -/
theorem format_prompt_ok_with_extras (template : String) (ctx : Ctx)
    (ps : List String) (hps : placeholders template = some ps)
    (hall : ∀ p ∈ ps, (ctxGet ctx p).isSome) :
    (∃ s, format_prompt template ctx = .ok s)
    ∧ ∀ k v, k ∉ ps → format_prompt template ((k, v) :: ctx) = format_prompt template ctx := by
  obtain ⟨ts, hts, hph⟩ : ∃ ts, tokenize template = some ts ∧ phNames ts = ps := by
    unfold placeholders at hps
    cases h : tokenize template with
    | none => rw [h] at hps; cases hps
    | some ts => rw [h] at hps; exact ⟨ts, rfl, by simpa using hps⟩
  subst hph
  constructor
  · obtain ⟨s, hs⟩ := render_ok_of_present hall
    exact ⟨s, by simp [format_prompt, hts, hs]⟩
  · intro k v hk
    simp [format_prompt, hts, render_extra_key k v ctx hk]

/-- Witness for C7: a fully provided context renders successfully, and an
extra unreferenced key changes nothing. -/
theorem format_prompt_ok_with_extras_witness :
    format_prompt "TIPO: {tipo} TEXTO: {texto}"
        [("tipo", "recurso"), ("texto", "minuta")] = .ok "TIPO: recurso TEXTO: minuta"
  ∧ format_prompt "TIPO: {tipo} TEXTO: {texto}"
        (("fatos", "extra") :: [("tipo", "recurso"), ("texto", "minuta")]) =
      format_prompt "TIPO: {tipo} TEXTO: {texto}"
        [("tipo", "recurso"), ("texto", "minuta")] := by
  have h := format_prompt_ok_with_extras "TIPO: {tipo} TEXTO: {texto}"
    [("tipo", "recurso"), ("texto", "minuta")] ["tipo", "texto"] (by decide) (by decide)
  obtain ⟨s, hs⟩ := h.1
  have h2 : Except.ok s =
      (Except.ok "TIPO: recurso TEXTO: minuta" : Except PipelineError String) :=
    hs.symm.trans (by decide)
  injection h2 with h3
  subst h3
  exact ⟨hs, h.2 "fatos" "extra" (by decide)⟩

/-! ### Fatal missing generator and frame properties (claims C3, C8, C9) -/

/-- C3: when no generator binding is persisted for the context's petition
type, `generate_petition` raises the `noGenerator` `ValueError` and makes no
agent invocation at all — no generator call and no reviewer call.  The lookup
itself (`get_agent_model_by_specialty`) signals absence with the `none`
sentinel, which is the hypothesis consumed here; the orchestrator converts it
into the fatal error. -/
theorem generate_petition_no_generator_fatal (db : AgentDB) (ai : AIClient)
    (context : Ctx)
    (hfind : get_agent_model_by_specialty db "generator"
      ((ctxGet context "tipo").getD "") = none) :
    (generate_petition db ai context).result =
        .error (.noGenerator ((ctxGet context "tipo").getD ""))
    ∧ (generate_petition db ai context).genCalls = []
    ∧ (generate_petition db ai context).revCalls = [] := by
  rw [generate_petition_of_noGen hfind]
  exact ⟨rfl, rfl, rfl⟩

/-- Witness for C3: the spec's `tipo = "inexistente"` scenario against the
full catalog. -/
theorem generate_petition_no_generator_fatal_witness :
    (generate_petition dbFull aiFixed [("tipo", "inexistente")]).result =
        .error (.noGenerator "inexistente")
    ∧ (generate_petition dbFull aiFixed [("tipo", "inexistente")]).genCalls = []
    ∧ (generate_petition dbFull aiFixed [("tipo", "inexistente")]).revCalls = [] := by
  have h := generate_petition_no_generator_fatal dbFull aiFixed
    [("tipo", "inexistente")] (by decide)
  have he : (ctxGet [("tipo", "inexistente")] "tipo").getD "" = "inexistente" := by decide
  rw [he] at h
  exact h

/-- C8: `generate_petition` hands the caller's context back unchanged on
every path — the pipeline and the agents only read it, and every stage builds
a fresh context object of its own. -/
theorem generate_petition_preserves_caller_context (db : AgentDB) (ai : AIClient)
    (context : Ctx) :
    (generate_petition db ai context).finalContext = context := by
  cases hfind : get_agent_model_by_specialty db "generator"
      ((ctxGet context "tipo").getD "") with
  | none => rw [generate_petition_of_noGen hfind]
  | some gm =>
    cases hgen : agent_generate_result ai gm.model_id gm.prompt_template context with
    | error e => rw [generate_petition_of_genFail hfind hgen]
    | ok t0 =>
      rw [generate_petition_of_genOk hfind hgen]
      unfold finishRun
      cases (stagesAfter db ai ((ctxGet context "tipo").getD "") t0).err <;> rfl

/-- C9: when the client's response lacks the `choices` key, or its first
choice lacks the `text` key, `PetitionAgent.generate` returns the empty
string as a successful result instead of raising. -/
theorem agent_generate_defaults_to_empty (ai : AIClient) (mid template prompt : String)
    (ctx : Ctx) (r : AIResponse)
    (hfmt : format_prompt template ctx = .ok prompt)
    (hai : ai mid prompt = .ok r)
    (hr : r.choices = none ∨ ∃ c cs, r.choices = some (c :: cs) ∧ c.textField = none) :
    (agent_generate ai mid template ctx).1 = .ok "" := by
  show agent_generate_result ai mid template ctx = .ok ""
  unfold agent_generate_result
  rw [hfmt]
  dsimp only []
  rw [hai]
  rcases hr with h | ⟨c, cs, h, ht⟩
  · simp [extract_generated_text, h]
  · simp [extract_generated_text, h, ht]

/-- Witness for C9, exercising both degenerate response shapes with a
placeholder-free template. -/
theorem agent_generate_defaults_to_empty_witness :
    format_prompt "revise" ([] : Ctx) = .ok "revise"
  ∧ (agent_generate (fun _ _ => .ok ⟨none⟩) "m" "revise" ([] : Ctx)).1 = .ok ""
  ∧ (agent_generate (fun _ _ => .ok ⟨some [⟨none⟩]⟩) "m" "revise" ([] : Ctx)).1 = .ok "" := by
  refine ⟨by decide, ?_, ?_⟩
  · exact agent_generate_defaults_to_empty (fun _ _ => .ok ⟨none⟩) "m" "revise"
      "revise" [] ⟨none⟩ (by decide) rfl (Or.inl rfl)
  · exact agent_generate_defaults_to_empty (fun _ _ => .ok ⟨some [⟨none⟩]⟩) "m" "revise"
      "revise" [] ⟨some [⟨none⟩]⟩ (by decide) rfl (Or.inr ⟨⟨none⟩, [], rfl, rfl⟩)

/-! ### Reviewer stage inputs (claim C4) -/

/-- C4: every reviewer stage that runs receives a fresh context holding
exactly the two keys `tipo` (the original context's petition type, as
defaulted by `context.get("tipo", "")`) and `texto` (the latest text at that
stage), and no other key — in particular none of the caller's case-fact
fields; moreover the received texts chain: the first reviewer consumed the
generator output and each later reviewer consumed the previous call's
output. -/
theorem reviewer_context_isolation (db : AgentDB) (ai : AIClient) (context : Ctx) :
    (∀ c ∈ (generate_petition db ai context).revCalls,
        c.ctx = [("tipo", (ctxGet context "tipo").getD ""), ("texto", c.input)]
      ∧ ctxGet c.ctx "tipo" = some ((ctxGet context "tipo").getD "")
      ∧ ctxGet c.ctx "texto" = some c.input
      ∧ ∀ k, k ≠ "tipo" → k ≠ "texto" → ctxGet c.ctx k = none)
  ∧ ∃ t0, chainFrom (some t0) (generate_petition db ai context).revCalls
      ∧ ∀ r, (generate_petition db ai context).result = .ok r →
          ctxGet r "original" = some t0 := by
  cases hfind : get_agent_model_by_specialty db "generator"
      ((ctxGet context "tipo").getD "") with
  | none =>
    rw [generate_petition_of_noGen hfind]
    exact ⟨fun c hc => absurd hc (List.not_mem_nil c),
           "", trivial, fun r hr => nomatch hr⟩
  | some gm =>
    cases hgen : agent_generate_result ai gm.model_id gm.prompt_template context with
    | error e =>
      rw [generate_petition_of_genFail hfind hgen]
      exact ⟨fun c hc => absurd hc (List.not_mem_nil c),
             "", trivial, fun r hr => nomatch hr⟩
    | ok t0 =>
      rw [generate_petition_of_genOk hfind hgen]
      obtain ⟨hchain, hlast, hctx, tl, hres⟩ :
          StInv t0 ((ctxGet context "tipo").getD "")
            (stagesAfter db ai ((ctxGet context "tipo").getD "") t0) := by
        unfold stagesAfter
        exact StInv_preserved (StInv_preserved (StInv_preserved (StInv_preserved
          (StInv_init t0 _))))
      have hcalls : (finishRun context
            (stagesAfter db ai ((ctxGet context "tipo").getD "") t0)).revCalls =
          (stagesAfter db ai ((ctxGet context "tipo").getD "") t0).calls := by
        unfold finishRun
        cases (stagesAfter db ai ((ctxGet context "tipo").getD "") t0).err <;> rfl
      constructor
      · intro c hc
        rw [hcalls] at hc
        have hcc := hctx c hc
        refine ⟨hcc, ?_, ?_, ?_⟩
        · rw [hcc]; simp [ctxGet]
        · rw [hcc]; simp [ctxGet]
        · intro k hk1 hk2
          have h1 : ("tipo" : String) ≠ k := fun hh => hk1 hh.symm
          have h2 : ("texto" : String) ≠ k := fun hh => hk2 hh.symm
          rw [hcc]
          simp [ctxGet, h1, h2]
      · refine ⟨t0, by rw [hcalls]; exact hchain, ?_⟩
        intro r hr
        unfold finishRun at hr
        cases herr : (stagesAfter db ai ((ctxGet context "tipo").getD "") t0).err with
        | some e => rw [herr] at hr; cases hr
        | none =>
          rw [herr] at hr
          dsimp only [] at hr
          injection hr with hr
          rw [← hr, hres]
          simp [List.cons_append, ctxGet]

/-- Witness for C4: against the full catalog, the recorded `gramatica` call
received exactly the two-key context, answers the key queries concretely,
and the whole reviewer trace chains from the generator output. -/
theorem reviewer_context_isolation_witness :
    (⟨"gramatica", "texto gerado",
        [("tipo", "recurso_administrativo"), ("texto", "texto gerado")],
        some "texto gerado"⟩ : RevCall) ∈
      (generate_petition dbFull aiFixed ctxCase).revCalls
  ∧ ctxGet [("tipo", "recurso_administrativo"), ("texto", "texto gerado")] "tipo" =
      some "recurso_administrativo"
  ∧ ctxGet [("tipo", "recurso_administrativo"), ("texto", "texto gerado")] "fatos" = none
  ∧ chainFrom (some "texto gerado") (generate_petition dbFull aiFixed ctxCase).revCalls := by
  have h := reviewer_context_isolation dbFull aiFixed ctxCase
  have hmem : (⟨"gramatica", "texto gerado",
      [("tipo", "recurso_administrativo"), ("texto", "texto gerado")],
      some "texto gerado"⟩ : RevCall) ∈
        (generate_petition dbFull aiFixed ctxCase).revCalls := by decide
  have hpt : (ctxGet ctxCase "tipo").getD "" = "recurso_administrativo" := by decide
  have hone := h.1 _ hmem
  refine ⟨hmem, ?_, ?_, ?_⟩
  · have := hone.2.1
    rw [hpt] at this
    exact this
  · exact hone.2.2.2 "fatos" (by decide) (by decide)
  · obtain ⟨t0, hch, hor⟩ := h.2
    have hres : (generate_petition dbFull aiFixed ctxCase).result =
        .ok [("original", "texto gerado"), ("gramatica", "texto gerado"),
             ("juridico", "texto gerado"), ("linguagem", "texto gerado"),
             ("formatacao", "texto gerado"), ("final", "texto gerado")] := by decide
    have ho := hor _ hres
    have ht0 : some t0 = some "texto gerado" := by
      rw [← ho]; decide
    have ht0' : t0 = "texto gerado" := by injection ht0
    rw [← ht0']
    exact hch

/-! ### Stage order and final text (claim C1) -/

/-- A pending exception persists through the remaining stages. -/
theorem err_persists {db : AgentDB} {ai : AIClient} {s pt : String}
    {st : PState} {e : PipelineError} (h : st.err = some e) :
    (run_reviewer_stage db ai s pt st).err = some e := by
  rw [run_reviewer_stage_of_err h]; exact h

/-- C1: whenever `generate_petition` returns a `StageResult`, the reviewer
stages were visited in the fixed order gramatica, juridico, linguagem,
formatacao, restricted to the present bindings; and `final` is the output of
the last stage that ran — the generator output when all four reviewer
bindings are absent, and the `formatacao` output when all four are present. -/
theorem generate_petition_fixed_order_and_final (db : AgentDB) (ai : AIClient)
    (context : Ctx) (r : List (String × String))
    (h : (generate_petition db ai context).result = .ok r) :
    (generate_petition db ai context).revCalls.map RevCall.specialty =
      reviewer_stage_order.filter
        (fun s => (get_agent_model_by_specialty db "reviewer" s).isSome)
  ∧ ((∀ s ∈ reviewer_stage_order, get_agent_model_by_specialty db "reviewer" s = none) →
      ctxGet r "final" = ctxGet r "original")
  ∧ ((∀ s ∈ reviewer_stage_order, (get_agent_model_by_specialty db "reviewer" s).isSome) →
      ctxGet r "final" = ctxGet r "formatacao") := by
  cases hfind : get_agent_model_by_specialty db "generator"
      ((ctxGet context "tipo").getD "") with
  | none => rw [generate_petition_of_noGen hfind] at h; exact nomatch h
  | some gm =>
    cases hgen : agent_generate_result ai gm.model_id gm.prompt_template context with
    | error e => rw [generate_petition_of_genFail hfind hgen] at h; exact nomatch h
    | ok t0 =>
      rw [generate_petition_of_genOk hfind hgen] at h ⊢
      simp only [stagesAfter] at h ⊢
      set pt := (ctxGet context "tipo").getD "" with hpt
      set s1 := run_reviewer_stage db ai "gramatica" pt ⟨[("original", t0)], t0, [], none⟩
        with hs1
      set s2 := run_reviewer_stage db ai "juridico" pt s1 with hs2
      set s3 := run_reviewer_stage db ai "linguagem" pt s2 with hs3
      set s4 := run_reviewer_stage db ai "formatacao" pt s3 with hs4
      have herr4 : s4.err = none := by
        unfold finishRun at h
        cases he : s4.err with
        | none => rfl
        | some e => rw [he] at h; exact nomatch h
      have hfin : finishRun context s4 =
          ⟨.ok (s4.results ++ [("final", s4.current)]), context, [context], s4.calls⟩ := by
        unfold finishRun; rw [herr4]
      rw [hfin] at h ⊢
      have hr : s4.results ++ [("final", s4.current)] = r := by
        dsimp only [] at h
        injection h
      have herr3 : (run_reviewer_stage db ai "formatacao" pt s3).err = none := by
        rw [← hs4]; exact herr4
      have he3 : s3.err = none := err_none_before_stage herr3
      have herr2 : (run_reviewer_stage db ai "linguagem" pt s2).err = none := by
        rw [← hs3]; exact he3
      have he2 : s2.err = none := err_none_before_stage herr2
      have herr1 : (run_reviewer_stage db ai "juridico" pt s1).err = none := by
        rw [← hs2]; exact he2
      have he1 : s1.err = none := err_none_before_stage herr1
      have herr0 : (run_reviewer_stage db ai "gramatica" pt
          ⟨[("original", t0)], t0, [], none⟩).err = none := by
        rw [← hs1]; exact he1
      refine ⟨?_, ?_, ?_⟩
      · -- visiting order
        dsimp only []
        rw [hs4, stage_calls_map herr3, hs3, stage_calls_map herr2,
            hs2, stage_calls_map herr1, hs1, stage_calls_map herr0]
        by_cases h1 : (get_agent_model_by_specialty db "reviewer" "gramatica").isSome = true <;>
        by_cases h2 : (get_agent_model_by_specialty db "reviewer" "juridico").isSome = true <;>
        by_cases h3 : (get_agent_model_by_specialty db "reviewer" "linguagem").isSome = true <;>
        by_cases h4 : (get_agent_model_by_specialty db "reviewer" "formatacao").isSome = true <;>
          simp [reviewer_stage_order, List.filter_cons, h1, h2, h3, h4]
      · -- all bindings absent: final equals the generator output
        intro habs
        have ha1 := habs "gramatica" (by simp [reviewer_stage_order])
        have ha2 := habs "juridico" (by simp [reviewer_stage_order])
        have ha3 := habs "linguagem" (by simp [reviewer_stage_order])
        have ha4 := habs "formatacao" (by simp [reviewer_stage_order])
        have hs40 : s4 = ⟨[("original", t0)], t0, [], none⟩ := by
          rw [hs4, hs3, hs2, hs1, run_reviewer_stage_of_absent ha1,
              run_reviewer_stage_of_absent ha2, run_reviewer_stage_of_absent ha3,
              run_reviewer_stage_of_absent ha4]
        rw [hs40] at hr
        rw [← hr]
        simp [ctxGet]
      · -- all bindings present: final equals the formatacao output
        intro hpres
        obtain ⟨m1, hm1⟩ := Option.isSome_iff_exists.mp
          (hpres "gramatica" (by simp [reviewer_stage_order]))
        obtain ⟨m2, hm2⟩ := Option.isSome_iff_exists.mp
          (hpres "juridico" (by simp [reviewer_stage_order]))
        obtain ⟨m3, hm3⟩ := Option.isSome_iff_exists.mp
          (hpres "linguagem" (by simp [reviewer_stage_order]))
        obtain ⟨m4, hm4⟩ := Option.isSome_iff_exists.mp
          (hpres "formatacao" (by simp [reviewer_stage_order]))
        cases hgen1 : agent_generate_result ai m1.model_id m1.prompt_template
            [("tipo", pt), ("texto", t0)] with
        | error e =>
          have hb1 : s1.err = some e := by
            rw [hs1, run_reviewer_stage_of_fail rfl hm1 hgen1]
          have : s4.err = some e := by
            rw [hs4, hs3, hs2]
            exact err_persists (err_persists (err_persists hb1))
          rw [herr4] at this; exact nomatch this
        | ok t1 =>
          have hb1 : s1 = ⟨[("original", t0), ("gramatica", t1)], t1,
              [⟨"gramatica", t0, [("tipo", pt), ("texto", t0)], some t1⟩], none⟩ := by
            rw [hs1, run_reviewer_stage_of_ok rfl hm1 hgen1]; rfl
          cases hgen2 : agent_generate_result ai m2.model_id m2.prompt_template
              [("tipo", pt), ("texto", t1)] with
          | error e =>
            have hb2 : s2.err = some e := by
              rw [hs2, run_reviewer_stage_of_fail (by rw [hb1]) hm2
                (by rw [hb1]; exact hgen2)]
            have : s4.err = some e := by
              rw [hs4, hs3]
              exact err_persists (err_persists hb2)
            rw [herr4] at this; exact nomatch this
          | ok t2 =>
            have hb2 : s2 = ⟨[("original", t0), ("gramatica", t1), ("juridico", t2)], t2,
                [⟨"gramatica", t0, [("tipo", pt), ("texto", t0)], some t1⟩,
                 ⟨"juridico", t1, [("tipo", pt), ("texto", t1)], some t2⟩], none⟩ := by
              rw [hs2, run_reviewer_stage_of_ok (by rw [hb1]) hm2
                (by rw [hb1]; exact hgen2), hb1]
              rfl
            cases hgen3 : agent_generate_result ai m3.model_id m3.prompt_template
                [("tipo", pt), ("texto", t2)] with
            | error e =>
              have hb3 : s3.err = some e := by
                rw [hs3, run_reviewer_stage_of_fail (by rw [hb2]) hm3
                  (by rw [hb2]; exact hgen3)]
              have : s4.err = some e := by
                rw [hs4]
                exact err_persists hb3
              rw [herr4] at this; exact nomatch this
            | ok t3 =>
              have hb3 : s3 = ⟨[("original", t0), ("gramatica", t1), ("juridico", t2),
                  ("linguagem", t3)], t3,
                  [⟨"gramatica", t0, [("tipo", pt), ("texto", t0)], some t1⟩,
                   ⟨"juridico", t1, [("tipo", pt), ("texto", t1)], some t2⟩,
                   ⟨"linguagem", t2, [("tipo", pt), ("texto", t2)], some t3⟩], none⟩ := by
                rw [hs3, run_reviewer_stage_of_ok (by rw [hb2]) hm3
                  (by rw [hb2]; exact hgen3), hb2]
                rfl
              cases hgen4 : agent_generate_result ai m4.model_id m4.prompt_template
                  [("tipo", pt), ("texto", t3)] with
              | error e =>
                have hb4 : s4.err = some e := by
                  rw [hs4, run_reviewer_stage_of_fail (by rw [hb3]) hm4
                    (by rw [hb3]; exact hgen4)]
                rw [herr4] at hb4; exact nomatch hb4
              | ok t4 =>
                have hb4 : s4 = ⟨[("original", t0), ("gramatica", t1), ("juridico", t2),
                    ("linguagem", t3), ("formatacao", t4)], t4,
                    [⟨"gramatica", t0, [("tipo", pt), ("texto", t0)], some t1⟩,
                     ⟨"juridico", t1, [("tipo", pt), ("texto", t1)], some t2⟩,
                     ⟨"linguagem", t2, [("tipo", pt), ("texto", t2)], some t3⟩,
                     ⟨"formatacao", t3, [("tipo", pt), ("texto", t3)], some t4⟩], none⟩ := by
                  rw [hs4, run_reviewer_stage_of_ok (by rw [hb3]) hm4
                    (by rw [hb3]; exact hgen4), hb3]
                  rfl
                rw [hb4] at hr
                rw [← hr]
                simp [ctxGet]

/-- Witness for C1: with all four reviewer bindings present the stages run in
the fixed order and `final` equals the `formatacao` output; with no reviewer
binding `final` equals the generator output. -/
theorem generate_petition_fixed_order_and_final_witness :
    (generate_petition dbFull aiFixed ctxCase).result =
        .ok [("original", "texto gerado"), ("gramatica", "texto gerado"),
             ("juridico", "texto gerado"), ("linguagem", "texto gerado"),
             ("formatacao", "texto gerado"), ("final", "texto gerado")]
  ∧ (generate_petition dbFull aiFixed ctxCase).revCalls.map RevCall.specialty =
      ["gramatica", "juridico", "linguagem", "formatacao"]
  ∧ ctxGet [("original", "texto gerado"), ("gramatica", "texto gerado"),
            ("juridico", "texto gerado"), ("linguagem", "texto gerado"),
            ("formatacao", "texto gerado"), ("final", "texto gerado")] "final" =
      ctxGet [("original", "texto gerado"), ("gramatica", "texto gerado"),
              ("juridico", "texto gerado"), ("linguagem", "texto gerado"),
              ("formatacao", "texto gerado"), ("final", "texto gerado")] "formatacao"
  ∧ (generate_petition dbGeneratorOnly aiFixed ctxCase).result =
        .ok [("original", "texto gerado"), ("final", "texto gerado")]
  ∧ ctxGet [("original", "texto gerado"), ("final", "texto gerado")] "final" =
      ctxGet [("original", "texto gerado"), ("final", "texto gerado")] "original" := by
  have h1 := generate_petition_fixed_order_and_final dbFull aiFixed ctxCase
    [("original", "texto gerado"), ("gramatica", "texto gerado"),
     ("juridico", "texto gerado"), ("linguagem", "texto gerado"),
     ("formatacao", "texto gerado"), ("final", "texto gerado")] (by decide)
  have h2 := generate_petition_fixed_order_and_final dbGeneratorOnly aiFixed ctxCase
    [("original", "texto gerado"), ("final", "texto gerado")] (by decide)
  exact ⟨by decide, h1.1.trans (by decide), h1.2.2 (by decide),
         by decide, h2.2.1 (by decide)⟩

/-! ### Skip semantics for an absent `juridico` reviewer (claim C2) -/

/-- C2: with the `juridico` binding absent and `gramatica`, `linguagem`,
`formatacao` present, a completed run returns exactly the keys `original`,
`gramatica`, `linguagem`, `formatacao`, `final`, carries no `juridico` key,
sets `final` to the `formatacao` output, and the skipped stage leaves the
latest text unchanged: `linguagem` consumed the `gramatica` output. -/
theorem generate_petition_skips_missing_juridico (db : AgentDB) (ai : AIClient)
    (context : Ctx) (r : List (String × String))
    (hg : (get_agent_model_by_specialty db "reviewer" "gramatica").isSome = true)
    (hj : get_agent_model_by_specialty db "reviewer" "juridico" = none)
    (hl : (get_agent_model_by_specialty db "reviewer" "linguagem").isSome = true)
    (hf : (get_agent_model_by_specialty db "reviewer" "formatacao").isSome = true)
    (h : (generate_petition db ai context).result = .ok r) :
    r.map Prod.fst = ["original", "gramatica", "linguagem", "formatacao", "final"]
  ∧ ctxGet r "juridico" = none
  ∧ ctxGet r "final" = ctxGet r "formatacao"
  ∧ ∃ t0 t1 t2 t3,
      r = [("original", t0), ("gramatica", t1), ("linguagem", t2),
           ("formatacao", t3), ("final", t3)]
      ∧ (generate_petition db ai context).revCalls.map RevCall.specialty =
          ["gramatica", "linguagem", "formatacao"]
      ∧ (generate_petition db ai context).revCalls.map RevCall.input = [t0, t1, t2] := by
  cases hfind : get_agent_model_by_specialty db "generator"
      ((ctxGet context "tipo").getD "") with
  | none => rw [generate_petition_of_noGen hfind] at h; exact nomatch h
  | some gm =>
    cases hgen : agent_generate_result ai gm.model_id gm.prompt_template context with
    | error e => rw [generate_petition_of_genFail hfind hgen] at h; exact nomatch h
    | ok t0 =>
      rw [generate_petition_of_genOk hfind hgen] at h ⊢
      simp only [stagesAfter] at h ⊢
      set pt := (ctxGet context "tipo").getD "" with hpt
      set s1 := run_reviewer_stage db ai "gramatica" pt ⟨[("original", t0)], t0, [], none⟩
        with hs1
      set s2 := run_reviewer_stage db ai "juridico" pt s1 with hs2
      set s3 := run_reviewer_stage db ai "linguagem" pt s2 with hs3
      set s4 := run_reviewer_stage db ai "formatacao" pt s3 with hs4
      have herr4 : s4.err = none := by
        unfold finishRun at h
        cases he : s4.err with
        | none => rfl
        | some e => rw [he] at h; exact nomatch h
      have hfin : finishRun context s4 =
          ⟨.ok (s4.results ++ [("final", s4.current)]), context, [context], s4.calls⟩ := by
        unfold finishRun; rw [herr4]
      rw [hfin] at h ⊢
      have hr : s4.results ++ [("final", s4.current)] = r := by
        dsimp only [] at h
        injection h
      obtain ⟨m1, hm1⟩ := Option.isSome_iff_exists.mp hg
      obtain ⟨m3, hm3⟩ := Option.isSome_iff_exists.mp hl
      obtain ⟨m4, hm4⟩ := Option.isSome_iff_exists.mp hf
      cases hgen1 : agent_generate_result ai m1.model_id m1.prompt_template
          [("tipo", pt), ("texto", t0)] with
      | error e =>
        have hb1 : s1.err = some e := by
          rw [hs1, run_reviewer_stage_of_fail rfl hm1 hgen1]
        have : s4.err = some e := by
          rw [hs4, hs3, hs2]
          exact err_persists (err_persists (err_persists hb1))
        rw [herr4] at this; exact nomatch this
      | ok t1 =>
        have hb1 : s1 = ⟨[("original", t0), ("gramatica", t1)], t1,
            [⟨"gramatica", t0, [("tipo", pt), ("texto", t0)], some t1⟩], none⟩ := by
          rw [hs1, run_reviewer_stage_of_ok rfl hm1 hgen1]; rfl
        have hb2 : s2 = ⟨[("original", t0), ("gramatica", t1)], t1,
            [⟨"gramatica", t0, [("tipo", pt), ("texto", t0)], some t1⟩], none⟩ := by
          rw [hs2, run_reviewer_stage_of_absent hj, hb1]
        cases hgen3 : agent_generate_result ai m3.model_id m3.prompt_template
            [("tipo", pt), ("texto", t1)] with
        | error e =>
          have hb3 : s3.err = some e := by
            rw [hs3, run_reviewer_stage_of_fail (by rw [hb2]) hm3
              (by rw [hb2]; exact hgen3)]
          have : s4.err = some e := by
            rw [hs4]
            exact err_persists hb3
          rw [herr4] at this; exact nomatch this
        | ok t2 =>
          have hb3 : s3 = ⟨[("original", t0), ("gramatica", t1), ("linguagem", t2)], t2,
              [⟨"gramatica", t0, [("tipo", pt), ("texto", t0)], some t1⟩,
               ⟨"linguagem", t1, [("tipo", pt), ("texto", t1)], some t2⟩], none⟩ := by
            rw [hs3, run_reviewer_stage_of_ok (by rw [hb2]) hm3
              (by rw [hb2]; exact hgen3), hb2]
            rfl
          cases hgen4 : agent_generate_result ai m4.model_id m4.prompt_template
              [("tipo", pt), ("texto", t2)] with
          | error e =>
            have hb4 : s4.err = some e := by
              rw [hs4, run_reviewer_stage_of_fail (by rw [hb3]) hm4
                (by rw [hb3]; exact hgen4)]
            rw [herr4] at hb4; exact nomatch hb4
          | ok t3 =>
            have hb4 : s4 = ⟨[("original", t0), ("gramatica", t1), ("linguagem", t2),
                ("formatacao", t3)], t3,
                [⟨"gramatica", t0, [("tipo", pt), ("texto", t0)], some t1⟩,
                 ⟨"linguagem", t1, [("tipo", pt), ("texto", t1)], some t2⟩,
                 ⟨"formatacao", t2, [("tipo", pt), ("texto", t2)], some t3⟩], none⟩ := by
              rw [hs4, run_reviewer_stage_of_ok (by rw [hb3]) hm4
                (by rw [hb3]; exact hgen4), hb3]
              rfl
            rw [hb4] at hr
            refine ⟨by rw [← hr]; rfl, by rw [← hr]; simp [ctxGet],
                    by rw [← hr]; simp [ctxGet],
                    t0, t1, t2, t3, by rw [← hr]; rfl, ?_, ?_⟩
            · dsimp only []
              rw [hb4]
              rfl
            · dsimp only []
              rw [hb4]
              rfl

/-- Witness for C2 against the catalog lacking the `juridico` binding. -/
theorem generate_petition_skips_missing_juridico_witness :
    (generate_petition dbNoJuridico aiFixed ctxCase).result =
        .ok [("original", "texto gerado"), ("gramatica", "texto gerado"),
             ("linguagem", "texto gerado"), ("formatacao", "texto gerado"),
             ("final", "texto gerado")]
  ∧ [("original", "texto gerado"), ("gramatica", "texto gerado"),
     ("linguagem", "texto gerado"), ("formatacao", "texto gerado"),
     ("final", "texto gerado")].map Prod.fst =
      ["original", "gramatica", "linguagem", "formatacao", "final"]
  ∧ ctxGet [("original", "texto gerado"), ("gramatica", "texto gerado"),
            ("linguagem", "texto gerado"), ("formatacao", "texto gerado"),
            ("final", "texto gerado")] "juridico" = none
  ∧ ctxGet [("original", "texto gerado"), ("gramatica", "texto gerado"),
            ("linguagem", "texto gerado"), ("formatacao", "texto gerado"),
            ("final", "texto gerado")] "final" =
      ctxGet [("original", "texto gerado"), ("gramatica", "texto gerado"),
              ("linguagem", "texto gerado"), ("formatacao", "texto gerado"),
              ("final", "texto gerado")] "formatacao"
  ∧ (generate_petition dbNoJuridico aiFixed ctxCase).revCalls.map RevCall.specialty =
      ["gramatica", "linguagem", "formatacao"] := by
  have h := generate_petition_skips_missing_juridico dbNoJuridico aiFixed ctxCase
    [("original", "texto gerado"), ("gramatica", "texto gerado"),
     ("linguagem", "texto gerado"), ("formatacao", "texto gerado"),
     ("final", "texto gerado")]
    (by decide) (by decide) (by decide) (by decide) (by decide)
  obtain ⟨t0, t1, t2, t3, hre, hsp, hin⟩ := h.2.2.2
  exact ⟨by decide, h.1, h.2.1, h.2.2.1, hsp⟩

/-! ### Missing `tipo` key (claim C10) -/

/-- C10: a context with no `tipo` key is processed exactly as petition type
`""` — `context.get("tipo", "")` cannot raise; the generator lookup uses
specialty `""`; `noGenerator` is raised precisely when that lookup finds
nothing; and when a binding for `""` exists, the generator is invoked and any
reviewer stage that runs sees petition type `""`. -/
theorem generate_petition_missing_tipo_defaults_empty (db : AgentDB) (ai : AIClient)
    (context : Ctx) (h : ctxGet context "tipo" = none) :
    ((generate_petition db ai context).result = .error (.noGenerator "") ↔
        get_agent_model_by_specialty db "generator" "" = none)
  ∧ ((get_agent_model_by_specialty db "generator" "").isSome = true →
        (generate_petition db ai context).genCalls = [context])
  ∧ ∀ c ∈ (generate_petition db ai context).revCalls, ctxGet c.ctx "tipo" = some "" := by
  have hpt : (ctxGet context "tipo").getD "" = "" := by rw [h]; rfl
  cases hfind : get_agent_model_by_specialty db "generator" "" with
  | none =>
    have hfind2 : get_agent_model_by_specialty db "generator"
        ((ctxGet context "tipo").getD "") = none := by rw [hpt]; exact hfind
    rw [generate_petition_of_noGen hfind2]
    refine ⟨⟨fun _ => rfl, fun _ => ?_⟩, ?_, ?_⟩
    · dsimp only []
      rw [hpt]
    · intro hs; exact nomatch hs
    · intro c hc; exact absurd hc (List.not_mem_nil c)
  | some gm =>
    have hfind2 : get_agent_model_by_specialty db "generator"
        ((ctxGet context "tipo").getD "") = some gm := by rw [hpt]; exact hfind
    cases hgen : agent_generate_result ai gm.model_id gm.prompt_template context with
    | error e =>
      rw [generate_petition_of_genFail hfind2 hgen]
      refine ⟨⟨?_, ?_⟩, fun _ => rfl, fun c hc => absurd hc (List.not_mem_nil c)⟩
      · intro hres
        dsimp only [] at hres
        injection hres with hres2
        exact absurd (by rw [hgen, hres2] :
            agent_generate_result ai gm.model_id gm.prompt_template context =
              .error (.noGenerator ""))
          (agent_generate_result_ne_noGenerator ai gm.model_id gm.prompt_template context "")
      · intro hnone; exact nomatch hnone
    | ok t0 =>
      rw [generate_petition_of_genOk hfind2 hgen]
      obtain ⟨hchain, hlast, hctx, tl, hres⟩ :
          StInv t0 ((ctxGet context "tipo").getD "")
            (stagesAfter db ai ((ctxGet context "tipo").getD "") t0) := by
        unfold stagesAfter
        exact StInv_preserved (StInv_preserved (StInv_preserved (StInv_preserved
          (StInv_init t0 _))))
      refine ⟨⟨?_, ?_⟩, ?_, ?_⟩
      · intro hres2
        exfalso
        unfold finishRun at hres2
        cases he : (stagesAfter db ai ((ctxGet context "tipo").getD "") t0).err with
        | none => rw [he] at hres2; exact nomatch hres2
        | some e2 =>
          rw [he] at hres2
          dsimp only [] at hres2
          injection hres2 with hre
          rw [hre] at he
          unfold stagesAfter at he
          rcases stage_err_source he with h4 | hno
          · rcases stage_err_source h4 with h3 | hno
            · rcases stage_err_source h3 with h2 | hno
              · rcases stage_err_source h2 with h1 | hno
                · exact nomatch h1
                · exact hno "" rfl
              · exact hno "" rfl
            · exact hno "" rfl
          · exact hno "" rfl
      · intro hnone; exact nomatch hnone
      · intro _
        unfold finishRun
        cases (stagesAfter db ai ((ctxGet context "tipo").getD "") t0).err <;> rfl
      · intro c hc
        have hcalls : (finishRun context
              (stagesAfter db ai ((ctxGet context "tipo").getD "") t0)).revCalls =
            (stagesAfter db ai ((ctxGet context "tipo").getD "") t0).calls := by
          unfold finishRun
          cases (stagesAfter db ai ((ctxGet context "tipo").getD "") t0).err <;> rfl
        rw [hcalls] at hc
        rw [hctx c hc, hpt]
        simp [ctxGet]

/-- Witness for C10: a context lacking `tipo` raises `noGenerator ""` against
the full catalog (which has no generator bound to specialty `""`), while a
catalog that does bind specialty `""` lets the generator run. -/
theorem generate_petition_missing_tipo_defaults_empty_witness :
    ctxGet ctxSemTipo "tipo" = none
  ∧ (generate_petition dbFull aiFixed ctxSemTipo).result = .error (.noGenerator "")
  ∧ (generate_petition [⟨"g", "", "m0", "generator", "", "oi"⟩] aiFixed
      ctxSemTipo).genCalls = [ctxSemTipo] := by
  have h1 := generate_petition_missing_tipo_defaults_empty dbFull aiFixed ctxSemTipo
    (by decide)
  have h2 := generate_petition_missing_tipo_defaults_empty
    [⟨"g", "", "m0", "generator", "", "oi"⟩] aiFixed ctxSemTipo (by decide)
  exact ⟨by decide, h1.1.mpr (by decide), h2.2.1 (by decide)⟩
